import Mathlib

/-!
Verification of the Dify issue moderation engine
(`dify-issue-moderator/scripts/moderate_issue.py`).

Texts are modelled as `List Char`.  Python string primitives are embedded
faithfully for the characters the program manipulates, with these documented
modelling choices:
* `str.isspace` / regex `\s` use the Unicode whitespace set of CPython.
* regex `\w` / `\b` use ASCII word characters (letters, digits, underscore).
* `str.lower` / `str.upper` are ASCII case mappings.
* Python float arithmetic is modelled by exact rationals; the threshold
  constant `0.20` is modelled as `1/5`, and `%`-formatting of floats is
  modelled by exact rational rounding (round half to even).
-/

namespace Moderate

/-- Conversion from Lean string literals to the character-list text model. -/
def str (s : String) : List Char := s.data

/-- Python `str.isspace` (also regex `\s`): the CPython whitespace set. -/
def isSpace (c : Char) : Bool :=
  (9 ≤ c.toNat && c.toNat ≤ 13) || (28 ≤ c.toNat && c.toNat ≤ 31) ||
  c.toNat = 32 || c.toNat = 0x85 || c.toNat = 0xa0 || c.toNat = 0x1680 ||
  (0x2000 ≤ c.toNat && c.toNat ≤ 0x200a) || c.toNat = 0x2028 ||
  c.toNat = 0x2029 || c.toNat = 0x202f || c.toNat = 0x205f || c.toNat = 0x3000

/-- The character class of `CJK_RE`: the fourteen CJK/Hangul/fullwidth ranges. -/
def isCJK (c : Char) : Bool :=
  (0x2e80 ≤ c.toNat && c.toNat ≤ 0x2eff) ||
  (0x3000 ≤ c.toNat && c.toNat ≤ 0x303f) ||
  (0x3040 ≤ c.toNat && c.toNat ≤ 0x309f) ||
  (0x30a0 ≤ c.toNat && c.toNat ≤ 0x30ff) ||
  (0x3100 ≤ c.toNat && c.toNat ≤ 0x312f) ||
  (0x3130 ≤ c.toNat && c.toNat ≤ 0x318f) ||
  (0x3200 ≤ c.toNat && c.toNat ≤ 0x32ff) ||
  (0x3300 ≤ c.toNat && c.toNat ≤ 0x33ff) ||
  (0x3400 ≤ c.toNat && c.toNat ≤ 0x4dbf) ||
  (0x4e00 ≤ c.toNat && c.toNat ≤ 0x9fff) ||
  (0xac00 ≤ c.toNat && c.toNat ≤ 0xd7af) ||
  (0xf900 ≤ c.toNat && c.toNat ≤ 0xfaff) ||
  (0xfe30 ≤ c.toNat && c.toNat ≤ 0xfe4f) ||
  (0xff01 ≤ c.toNat && c.toNat ≤ 0xff60) ||
  (0xffe0 ≤ c.toNat && c.toNat ≤ 0xffef)

/-- Regex `\w` (ASCII model): letters, digits, underscore. -/
def isWordChar (c : Char) : Bool :=
  ( 'a' ≤ c && c ≤ 'z') || ( 'A' ≤ c && c ≤ 'Z') ||
  ( '0' ≤ c && c ≤ '9') || c = '_'

/-- Python `str.lower` (ASCII model), characterwise. -/
def lowerStr (s : List Char) : List Char := s.map Char.toLower

/-- Python `str.upper` (ASCII model), characterwise. -/
def upperStr (s : List Char) : List Char := s.map Char.toUpper

/-- Line-break characters recognized by Python `str.splitlines`. -/
def isLineBreak (c : Char) : Bool :=
  c = '\n' || c = '\r' || c.toNat = 0x0b || c.toNat = 0x0c ||
  c.toNat = 0x1c || c.toNat = 0x1d || c.toNat = 0x1e ||
  c.toNat = 0x85 || c.toNat = 0x2028 || c.toNat = 0x2029

/-- Worker for `pySplitlines`: accumulates the current line (reversed). -/
def splitlinesGo : List Char → List Char → List (List Char)
  | [], acc => [acc.reverse]
  | '\r' :: '\n' :: rest, acc =>
      acc.reverse :: (if rest.isEmpty then [] else splitlinesGo rest [])
  | c :: rest, acc =>
      if isLineBreak c then
        acc.reverse :: (if rest.isEmpty then [] else splitlinesGo rest [])
      else splitlinesGo rest (c :: acc)

/-- Python `str.splitlines` (no trailing empty line, `\r\n` is one break). -/
def pySplitlines (s : List Char) : List (List Char) :=
  if s.isEmpty then [] else splitlinesGo s []

/-- Python `str.strip`: drop leading and trailing whitespace. -/
def pyStrip (s : List Char) : List Char :=
  ((s.dropWhile isSpace).reverse.dropWhile isSpace).reverse

/-- Join a list of texts with a separator, as Python `sep.join`. -/
def joinWith (sep : List Char) : List (List Char) → List Char
  | [] => []
  | [x] => x
  | x :: y :: xs => x ++ sep ++ joinWith sep (y :: xs)

/-- Maximal non-whitespace runs, as Python `str.split()` with no argument. -/
def wsWords (s : List Char) : List (List Char) :=
  (s.splitOnP isSpace).filter (fun w => !w.isEmpty)

/-- Source `normalize_space`: collapse whitespace runs to single spaces and
strip the ends (`re.sub` of `\s+` with a space, then `strip`). -/
def normalize_space (s : List Char) : List Char := joinWith [ ' '] (wsWords s)

/-- Source `dedupe`: keep the first occurrence of each item, preserving order. -/
def dedupe (items : List (List Char)) : List (List Char) :=
  items.foldl (fun acc item => if item ∈ acc then acc else acc ++ [item]) []

/-- Python substring containment `pat in s`. -/
def containsSub (pat : List Char) : List Char → Bool
  | [] => pat.isEmpty
  | c :: rest => pat.isPrefixOf (c :: rest) || containsSub pat rest

/-- Python `str.replace pat ""` for a non-empty pattern: delete every
left-to-right non-overlapping occurrence of `pat`. -/
def replaceAll (pat : List Char) (s : List Char) : List Char :=
  match s with
  | [] => []
  | c :: rest =>
      if h : ¬pat.isEmpty ∧ pat.isPrefixOf (c :: rest) then
        replaceAll pat ((c :: rest).drop pat.length)
      else c :: replaceAll pat rest
termination_by s.length
decreasing_by
  · simp only [List.length_drop]
    have hp : pat.length ≠ 0 := by
      simpa [List.isEmpty_iff, List.length_eq_zero] using h.1
    simp only [List.length_cons]
    omega
  · simp

/-- Source `cjk_ratio`: the number of characters matched by `CJK_RE` divided
by the number of non-whitespace characters (0 for empty or all-whitespace
text).  Python float division is modelled by exact rational division. -/
def cjk_ratio (text : List Char) : ℚ :=
  if text.isEmpty then 0
  else if text.countP (fun c => !isSpace c) = 0 then 0
  else Rat.divInt (text.countP isCJK : ℤ) (text.countP (fun c => !isSpace c) : ℤ)

/-- The two allowed bilingual snippets of `ALLOWED_SELF_CHECKS_CJK_SNIPPETS`. -/
def ALLOWED_SELF_CHECKS_CJK_SNIPPETS : List (List Char) :=
  [ str "我已阅读并同意", str "请务必使用英文提交 Issue，否则会被关闭。谢谢！:)"]

/-- Regex `^#{1,6}\s+.*` on an already-stripped line: one to six leading
hashes followed by a whitespace character. -/
def isHeadingLine (stripped : List Char) : Bool :=
  let n := (stripped.takeWhile (fun c => c = '#')).length
  1 ≤ n && n ≤ 6 &&
    match stripped.drop n with
    | c :: _ => isSpace c
    | [] => false

/-- Regex `^#{1,6}\s*Self Checks\s*$` (case-insensitive) on a stripped line. -/
def selfChecksHeader (stripped : List Char) : Bool :=
  let n := (stripped.takeWhile (fun c => c = '#')).length
  1 ≤ n && n ≤ 6 &&
    (let t := lowerStr ((stripped.drop n).dropWhile isSpace)
     (str "self checks").isPrefixOf t && (t.drop 11).all isSpace)

/-- The checkbox-or-empty remainders that cause a cleaned line to be dropped. -/
def CHECKBOX_REMAINDERS : List (List Char) :=
  [ str "- [x]", str "- [ ]", str "- [X]", str "* [x]", str "* [ ]",
    str "* [X]", str ""]

/-- Worker for `sanitize_body_for_cjk`: the line loop, carrying the
`in_self_checks` flag. -/
def sanitizeGo : Bool → List (List Char) → List (List Char)
  | _, [] => []
  | inSC, line :: rest =>
      if isHeadingLine (pyStrip line) then
        line :: sanitizeGo (selfChecksHeader (pyStrip line)) rest
      else if inSC &&
          ALLOWED_SELF_CHECKS_CJK_SNIPPETS.any (fun sn => containsSub sn line) then
        let cleaned :=
          ALLOWED_SELF_CHECKS_CJK_SNIPPETS.foldl
            (fun acc sn => replaceAll sn acc) line
        if pyStrip cleaned ∈ CHECKBOX_REMAINDERS then sanitizeGo inSC rest
        else cleaned :: sanitizeGo inSC rest
      else line :: sanitizeGo inSC rest

/-- Source `sanitize_body_for_cjk`: drop or clean the known bilingual
acknowledgment snippets inside a Self Checks section, then rejoin lines. -/
def sanitize_body_for_cjk (body : List Char) : List Char :=
  joinWith [ '\n'] (sanitizeGo false (pySplitlines body))

/-- Regex word boundary after a match that ends in a word character: the
following character, if any, is not a word character. -/
def boundaryAfter : List Char → Bool
  | [] => true
  | c :: _ => !isWordChar c

/-- Scan every position of a text, tracking whether the previous character is
a word character; succeed if the Bool matcher fires at a position preceded by
a non-word character (a `\b` before a word-character-initial pattern). -/
def wbScan (p : List Char → Bool) : Bool → List Char → Bool
  | _, [] => false
  | prev, c :: rest => (!prev && p (c :: rest)) || wbScan p (isWordChar c) rest

/-- Like `wbScan` but for an Option-valued matcher; returns the result at the
leftmost position where the matcher fires. -/
def wbScanFirst {α : Type} (p : List Char → Option α) :
    Bool → List Char → Option α
  | _, [] => none
  | prev, c :: rest =>
      match (if prev then none else p (c :: rest)) with
      | some v => some v
      | none => wbScanFirst p (isWordChar c) rest

/-- Regex search for `\b(alt1|alt2|...)\b` where every alternative starts and
ends with a word character; the text is expected pre-lowercased when the
regex is case-insensitive. -/
def wordSearch (pats : List (List Char)) (s : List Char) : Bool :=
  wbScan
    (fun t => pats.any (fun pat =>
      pat.isPrefixOf t && boundaryAfter (t.drop pat.length)))
    false s

/-- Digit characters (regex `\d`, ASCII model). -/
def isDigitChar (c : Char) : Bool := '0' ≤ c && c ≤ '9'

/-- Numeric value of a run of digit characters. -/
def digitsToNat (ds : List Char) : ℕ :=
  ds.foldl (fun a c => 10 * a + (c.toNat - 48)) 0

/-- Match of `v?(\d+)\.(\d+)(?:\.(\d+))?\b` at the head of the text, with the
backtracking semantics of the greedy quantifiers; the missing patch group
defaults to 0 as both call sites do. -/
def semverFrom (s : List Char) : Option (ℕ × ℕ × ℕ) :=
  let s1 := if s.head? = some 'v' then s.drop 1 else s
  match s1.takeWhile isDigitChar with
  | [] => none
  | _ :: _ =>
      let d1 := s1.takeWhile isDigitChar
      let r1 := s1.dropWhile isDigitChar
      match r1 with
      | '.' :: r2 =>
          match r2.takeWhile isDigitChar with
          | [] => none
          | _ :: _ =>
              let d2 := r2.takeWhile isDigitChar
              let r3 := r2.dropWhile isDigitChar
              match r3 with
              | '.' :: r4 =>
                  match r4.takeWhile isDigitChar with
                  | [] => some (digitsToNat d1, digitsToNat d2, 0)
                  | _ :: _ =>
                      let d3 := r4.takeWhile isDigitChar
                      let r5 := r4.dropWhile isDigitChar
                      if boundaryAfter r5 then
                        some (digitsToNat d1, digitsToNat d2, digitsToNat d3)
                      else some (digitsToNat d1, digitsToNat d2, 0)
              | _ =>
                  if boundaryAfter r3 then
                    some (digitsToNat d1, digitsToNat d2, 0)
                  else none
      | _ => none

/-- Source `parse_semver`: leftmost search of `SEMVER_RE` in a text, with the
patch component defaulting to 0. -/
def parse_semver (text : List Char) : Option (ℕ × ℕ × ℕ) :=
  wbScanFirst semverFrom false text

/-- Search of `DIFY_VERSION_LINE_RE` (`\bdify\s*version\b`, case-insensitive)
in a line. -/
def difyVersionLineSearch (line : List Char) : Bool :=
  wbScan
    (fun t =>
      (str "dify").isPrefixOf t &&
        (let u := (t.drop 4).dropWhile isSpace
         (str "version").isPrefixOf u && boundaryAfter (u.drop 7)))
    false (lowerStr line)

/-- Match of `DIFY_VERSION_INLINE_RE` (`\bdify\s*v?...`, case-insensitive) at
the head of a lowercased text. -/
def difyInlineAt (t : List Char) : Option (ℕ × ℕ × ℕ) :=
  if (str "dify").isPrefixOf t then semverFrom ((t.drop 4).dropWhile isSpace)
  else none

/-- Leftmost search of `DIFY_VERSION_INLINE_RE` in a body. -/
def difyInlineSearch (body : List Char) : Option (ℕ × ℕ × ℕ) :=
  wbScanFirst difyInlineAt false (lowerStr body)

/-- Source `extract_dify_version`: first scan lines for a `dify version`
label with a parseable version, then fall back to an inline mention. -/
def extract_dify_version (body : List Char) : Option (ℕ × ℕ × ℕ) :=
  if body.isEmpty then none
  else
    match (pySplitlines body).findSome?
        (fun line =>
          if difyVersionLineSearch line then parse_semver line else none) with
    | some v => some v
    | none => difyInlineSearch body

/-- The issue record consumed by the engine (source dataclass `IssueData`). -/
structure IssueData where
  repo : List Char
  number : ℕ
  title : List Char
  body : List Char
  author : List Char
  labels : List (List Char)
  state : List Char
  url : List Char
  author_association : List Char
  linked_prs : List (List Char)

/-- The engine output (source dataclass `Decision`). -/
structure Decision where
  action : List Char
  category : List Char
  reasons : List (List Char)
  comment : List Char := []

/-- The plugin repository set `PLUGIN_REPOS`. -/
def PLUGIN_REPOS : List (List Char) :=
  [ str "langgenius/dify-plugins", str "langgenius/dify-official-plugins"]

/-- The flagship repository `CORE_REPO`. -/
def CORE_REPO : List Char := str "langgenius/dify"

/-- The web-app repositories `WEBAPP_REPOS`. -/
def WEBAPP_REPOS : List (List Char) :=
  [ str "langgenius/webapp-conversation", str "langgenius/webapp-text-generator"]

/-- The core-like repository set `CORE_LIKE_REPOS = {CORE_REPO} | WEBAPP_REPOS`. -/
def CORE_LIKE_REPOS : List (List Char) := CORE_REPO :: WEBAPP_REPOS

/-- The supported repository set `SUPPORTED_REPOS = PLUGIN_REPOS | CORE_LIKE_REPOS`. -/
def SUPPORTED_REPOS : List (List Char) := PLUGIN_REPOS ++ CORE_LIKE_REPOS

/-- The trusted author associations `SKIP_ASSOCIATIONS`. -/
def SKIP_ASSOCIATIONS : List (List Char) :=
  [ str "OWNER", str "MEMBER", str "COLLABORATOR", str "CONTRIBUTOR"]

/-- The CJK ratio threshold; the Python float `0.20` modelled exactly. -/
def CJK_RATIO_THRESHOLD : ℚ := Rat.divInt 1 5

/-- The minimal accepted version `MIN_DIFY_VERSION = (1, 10, 0)`. -/
def MIN_DIFY_VERSION : ℕ × ℕ × ℕ := (1, 10, 0)

/-- Python lexicographic comparison of version triples. -/
def versionLt (a b : ℕ × ℕ × ℕ) : Bool :=
  a.1 < b.1 || (a.1 = b.1 && (a.2.1 < b.2.1 || (a.2.1 = b.2.1 && a.2.2 < b.2.2)))

/-- Source `language_check_text`: the title and the sanitized body. -/
def language_check_text (issue : IssueData) : List Char :=
  issue.title ++ [ '\n'] ++ sanitize_body_for_cjk issue.body

/-- The leading interrogative words of `QUESTION_START_RE`. -/
def QUESTION_START_WORDS : List (List Char) :=
  [ str "how", str "what", str "why", str "can", str "could", str "is",
    str "are", str "do", str "does", str "did", str "where", str "when",
    str "which", str "who", str "whom", str "help"]

/-- Match of `QUESTION_START_RE` (`^\s*(how|...)\b`, case-insensitive)
against a title. -/
def questionStart (title : List Char) : Bool :=
  let t := (lowerStr title).dropWhile isSpace
  QUESTION_START_WORDS.any (fun w =>
    w.isPrefixOf t && boundaryAfter (t.drop w.length))

/-- The question-lead phrases scanned for in the body head. -/
def QUESTION_BODY_MARKERS : List (List Char) :=
  [ str "how to ", str "what is ", str "can i ", str "could i ",
    str "any idea", str "anyone know", str "need help", str "i want to know",
    str "please tell me", str "i\u0027m wondering", str "i am wondering",
    str "is there a way", str "is it possible", str "does anyone",
    str "has anyone", str "please help", str "how can i", str "how do i",
    str "where can i"]

/-- Source `looks_like_question`. -/
def looks_like_question (issue : IssueData) : Bool :=
  let labels_lower := issue.labels.map lowerStr
  if labels_lower.contains (str "question") ||
      labels_lower.contains (str "support") then true
  else
    let title := pyStrip issue.title
    if title.contains '?' || title.contains '？' then true
    else if questionStart title then true
    else
      let body_head :=
        lowerStr (normalize_space
          (joinWith [ '\n'] ((pySplitlines issue.body).take 10)))
      QUESTION_BODY_MARKERS.any (fun m => containsSub m body_head)

/-- The section headings skipped by `effective_content` (`SKIP_SECTION_HEADINGS`). -/
def SKIP_SECTION_HEADINGS : List (List Char) := [ str "self checks", str "self check"]

/-- The non-answer sentinels `NON_RESPONSE_VALUES`. -/
def NON_RESPONSE_VALUES : List (List Char) :=
  [ str "_no response_", str "n/a", str "na", str "none"]

/-- Worker for `extract_template_sections`: the line loop carrying the
current heading and the accumulated (unreversed) content lines. -/
def sectionsGo : List Char → List (List Char) → List (List Char) →
    List (List Char × List Char)
  | currentHeading, currentLines, [] =>
      if currentHeading.isEmpty then []
      else [(currentHeading, pyStrip (joinWith [ '\n'] currentLines.reverse))]
  | currentHeading, currentLines, line :: rest =>
      let stripped := pyStrip line
      if isHeadingLine stripped then
        let n := (stripped.takeWhile (fun c => c = '#')).length
        let heading := pyStrip ((stripped.drop n).dropWhile isSpace)
        if currentHeading.isEmpty then sectionsGo heading [] rest
        else
          (currentHeading, pyStrip (joinWith [ '\n'] currentLines.reverse)) ::
            sectionsGo heading [] rest
      else sectionsGo currentHeading (line :: currentLines) rest

/-- Source `extract_template_sections`: (heading, content) pairs from
markdown-style headings. -/
def extract_template_sections (body : List Char) :
    List (List Char × List Char) :=
  sectionsGo [] [] (pySplitlines body)

/-- Match of the checkbox-line regex `^[-*]\s*\[[ xX]\]` at the head of a
stripped line. -/
def checkboxLine (ln : List Char) : Bool :=
  match ln with
  | m :: rest =>
      (m = '-' || m = '*') &&
        (match rest.dropWhile isSpace with
         | '[' :: x :: ']' :: _ => x = ' ' || x = 'x' || x = 'X'
         | _ => false)
  | [] => false

/-- The per-section body of the `effective_content` loop: `none` when the
section is dropped, otherwise its normalized content. -/
def sectionPart (sec : List Char × List Char) : Option (List Char) :=
  if lowerStr sec.1 ∈ SKIP_SECTION_HEADINGS then none
  else
    let content_clean := normalize_space sec.2
    if content_clean.isEmpty || lowerStr content_clean ∈ NON_RESPONSE_VALUES then
      none
    else
      let lines := ((pySplitlines sec.2).map pyStrip).filter
        (fun ln => !ln.isEmpty)
      if !lines.isEmpty && lines.all checkboxLine then none
      else some content_clean

/-- Source `effective_content`: meaningful content after dropping template
headings, checkbox-only sections, and non-answer values. -/
def effective_content (body : List Char) : List Char :=
  let sections := extract_template_sections body
  if sections.isEmpty then normalize_space body
  else
    let parts := sections.filterMap sectionPart
    if parts.isEmpty then normalize_space body else joinWith [ ' '] parts

/-- The alternatives of `GENERIC_TITLE_RE`, whose full match is membership. -/
def GENERIC_TITLES : List (List Char) :=
  [ str "bug", str "issue", str "help", str "question", str "error",
    str "problem", str "bug report", str "help me", str "fix this",
    str "not working", str "doesnt work", str "doesn\u0027t work",
    str "please help", str "request", str "suggestion"]

/-- Full match of `GENERIC_TITLE_RE` (case-insensitive). -/
def genericTitle (t : List Char) : Bool := GENERIC_TITLES.contains (lowerStr t)

/-- The alternatives of `PLACEHOLDER_RE` (`n/?a` expanded to both variants). -/
def PLACEHOLDER_WORDS : List (List Char) :=
  [ str "tbd", str "todo", str "n/a", str "na", str "none",
    str "same as title", str "no idea"]

/-- The detail-marker vocabulary of `unclear_reasons`. -/
def DETAIL_MARKERS : List (List Char) :=
  [ str "steps", str "reproduce", str "expected", str "actual", str "error",
    str "log", str "screenshot", str "use case", str "environment",
    str "version"]

/-- The filled-section count of `unclear_reasons` (note that the third
conjunct compares the raw content, not the heading, against the skip set,
exactly as the source does). -/
def filledCount (sections : List (List Char × List Char)) : ℕ :=
  sections.countP (fun sec =>
    !(NON_RESPONSE_VALUES.contains (lowerStr (normalize_space sec.2))) &&
    !(normalize_space sec.2).isEmpty &&
    !(SKIP_SECTION_HEADINGS.contains (lowerStr sec.2)))

/-- Source `unclear_reasons`. -/
def unclear_reasons (issue : IssueData) : List (List Char) :=
  let title_clean := normalize_space issue.title
  let body_clean := normalize_space issue.body
  let body_lower := lowerStr body_clean
  let content := effective_content issue.body
  let content_len := content.length
  let r1 :=
    if title_clean.length < 8 ∨ genericTitle title_clean then
      [ str "Title is too short or generic."]
    else []
  if body_clean.isEmpty then r1 ++ [ str "Description is empty."]
  else
    let r2 :=
      if content_len < 60 then
        [ str "Description is too short to understand the task."]
      else []
    let r3 :=
      if wordSearch PLACEHOLDER_WORDS body_lower then
        [ str "Description contains placeholders instead of concrete details."]
      else []
    let sections := extract_template_sections issue.body
    let r4 :=
      if !sections.isEmpty && filledCount sections ≤ 1 then
        [ str "Almost all template sections are empty or marked _No response_."]
      else []
    let marker_hits := DETAIL_MARKERS.countP (fun m => containsSub m body_lower)
    let r5 :=
      if content_len < 180 && marker_hits < 2 then
        [ str "Description lacks enough concrete context for maintainers."]
      else []
    dedupe (r1 ++ r2 ++ r3 ++ r4 ++ r5)

/-- The alternatives of `BUG_MARKERS_RE` (`fail(?:s|ure)?` expanded). -/
def BUG_MARKER_WORDS : List (List Char) :=
  [ str "bug", str "error", str "exception", str "traceback", str "crash",
    str "fails", str "failure", str "fail"]

/-- Source `is_bug_like`. -/
def is_bug_like (issue : IssueData) : Bool :=
  (issue.labels.map lowerStr).contains (str "bug") ||
    wordSearch BUG_MARKER_WORDS
      (lowerStr (issue.title ++ [ '\n'] ++ issue.body))

/-- Source `is_feature_like`. -/
def is_feature_like (issue : IssueData) : Bool :=
  (issue.labels.map lowerStr).contains (str "feature") ||
  (issue.labels.map lowerStr).contains (str "enhancement") ||
    (let combined := lowerStr (issue.title ++ [ '\n'] ++ issue.body)
     [ str "feature request", str "feature", str "enhancement",
       str "proposal", str "suggestion"].any
       (fun m => containsSub m combined))

/-- The case-insensitive phrase of `FEATURE_STORY_SECTION_RE` between the
section number and the captured group. -/
def STORY_PHRASE : List Char :=
  str "is this request related to a challenge you\u0027re experiencing?"

/-- Match of the head `#+\s*1\.\s*<phrase>` of `FEATURE_STORY_SECTION_RE` at
a position; returns the remainder after the phrase. -/
def storyHeadAt (s : List Char) : Option (List Char) :=
  let n := (s.takeWhile (fun c => c = '#')).length
  if n = 0 then none
  else
    match (s.drop n).dropWhile isSpace with
    | '1' :: '.' :: t2 =>
        let t3 := t2.dropWhile isSpace
        if STORY_PHRASE.isPrefixOf (lowerStr t3) then
          some (t3.drop STORY_PHRASE.length)
        else none
    | _ => none

/-- The lazy `.*?\n\n` of `FEATURE_STORY_SECTION_RE`: the remainder after the
earliest blank line. -/
def afterBlankLine : List Char → Option (List Char)
  | '\n' :: '\n' :: r => some r
  | _ :: r => afterBlankLine r
  | [] => none

/-- The lookahead `\n#+\s*2\.` of `FEATURE_STORY_SECTION_RE` at a position. -/
def sectionTwoAt (s : List Char) : Bool :=
  match s with
  | '\n' :: t =>
      let n := (t.takeWhile (fun c => c = '#')).length
      1 ≤ n &&
        (match (t.drop n).dropWhile isSpace with
         | '2' :: '.' :: _ => true
         | _ => false)
  | _ => false

/-- The lazy captured group of `FEATURE_STORY_SECTION_RE`: characters up to
the earliest lookahead position (or the end of the text). -/
def takeUntilSectionTwo : List Char → List Char
  | [] => []
  | c :: rest =>
      if sectionTwoAt (c :: rest) then [] else c :: takeUntilSectionTwo rest

/-- Leftmost full match of `FEATURE_STORY_SECTION_RE`, returning the
captured group. -/
def storySearch : List Char → Option (List Char)
  | [] => none
  | c :: rest =>
      match (match storyHeadAt (c :: rest) with
             | some tail =>
                 match afterBlankLine tail with
                 | some g => some (takeUntilSectionTwo g)
                 | none => none
             | none => none) with
      | some g => some g
      | none => storySearch rest

/-- Source `extract_feature_story`. -/
def extract_feature_story (body : List Char) : List Char :=
  match storySearch body with
  | some g => pyStrip g
  | none => []

/-- The action-verb alternatives of the feature-quality regex. -/
def FEATURE_VERBS : List (List Char) :=
  [ str "add", str "support", str "allow", str "enable", str "expose",
    str "visualize", str "customize"]

/-- Source `feature_request_quality`. -/
def feature_request_quality (issue : IssueData) : Bool :=
  let body := issue.body
  let body_lower := lowerStr body
  let body_clean := normalize_space body
  if body_clean.isEmpty then false
  else
    let story := normalize_space (extract_feature_story body)
    if !story.isEmpty && !NON_RESPONSE_VALUES.contains (lowerStr story) &&
        60 ≤ story.length then true
    else if containsSub (str "example") body_lower &&
        (containsSub (str "expected output") body_lower ||
          containsSub (str "expected") body_lower) then true
    else if wordSearch FEATURE_VERBS body_lower then 120 ≤ body_clean.length
    else false

/-- The disrespectful-language alternatives of `DISRESPECTFUL_RE`. -/
def DISRESPECTFUL_WORDS : List (List Char) :=
  [ str "idiot", str "stupid", str "dumb", str "fuck", str "shit", str "bitch"]

/-- Search of the multiline regex `^\s*1[.)]\s+` at the head of a text. -/
def numberedItemFrom (s : List Char) : Bool :=
  match s.dropWhile isSpace with
  | '1' :: d :: e :: _ => (d = '.' || d = ')') && isSpace e
  | _ => false

/-- Search of `^\s*1[.)]\s+` with `re.MULTILINE`: at the start of the text or
after any newline. -/
def numberedAfterNewline : List Char → Bool
  | [] => false
  | '\n' :: rest => numberedItemFrom rest || numberedAfterNewline rest
  | _ :: rest => numberedAfterNewline rest

/-- Search of `^\s*1[.)]\s+` with `re.MULTILINE`: at the start of the text or
after any newline. -/
def numberedItemSearch (s : List Char) : Bool :=
  numberedItemFrom s || numberedAfterNewline s

/-- Search of `\blog` (no trailing boundary) in a lowercased text. -/
def logSearch (s : List Char) : Bool :=
  wbScan (fun t => (str "log").isPrefixOf t) false s

/-- The `required` checks of `core_standard_violations` for bug-like issues,
in dict insertion order, evaluated on the lowercased body. -/
def bugRequiredViolations (body_lower : List Char) : List (List Char) :=
  (if wordSearch [ str "dify version"] body_lower ||
      wordSearch [ str "version"] body_lower then []
   else [ str "Include Dify version."]) ++
  (if wordSearch [ str "cloud"] body_lower ||
      containsSub (str "self-hosted") body_lower ||
      containsSub (str "self hosted") body_lower ||
      wordSearch [ str "docker"] body_lower ||
      wordSearch [ str "source"] body_lower then []
   else [ str "Include deployment mode (Cloud or Self Hosted)."]) ++
  (if containsSub (str "steps to reproduce") body_lower ||
      wordSearch [ str "reproduce"] body_lower ||
      numberedItemSearch body_lower then []
   else [ str "Include steps to reproduce."]) ++
  (if containsSub (str "expected behavior") body_lower ||
      wordSearch [ str "expected"] body_lower then []
   else [ str "Include expected behavior."]) ++
  (if containsSub (str "actual behavior") body_lower ||
      wordSearch [ str "actual"] body_lower || logSearch body_lower ||
      wordSearch [ str "error"] body_lower ||
      containsSub (str "traceback") body_lower then []
   else [ str "Include actual behavior and logs/error details when possible."])

/-- The use-case markers of the feature check in `core_standard_violations`. -/
def FEATURE_USECASE_MARKERS : List (List Char) :=
  [ str "use case", str "scenario", str "business value",
    str "why this is needed", str "motivation"]

/-- Source `core_standard_violations`. -/
def core_standard_violations (issue : IssueData) : List (List Char) :=
  let title_clean := normalize_space issue.title
  let body_clean := normalize_space issue.body
  let body_lower := lowerStr issue.body
  let v1 :=
    if title_clean.length < 12 || genericTitle title_clean then
      [ str "Use a clear and descriptive issue title."]
    else []
  let v2 :=
    if body_clean.length < 120 then
      [ str "Provide a detailed issue description with enough context."]
    else []
  let v3 :=
    if wordSearch DISRESPECTFUL_WORDS
        (lowerStr (issue.title ++ [ '\n'] ++ issue.body)) then
      [ str "Use respectful, professional language (Code of Conduct)."]
    else []
  let vbug := if is_bug_like issue then bugRequiredViolations body_lower else []
  let vfeat :=
    if is_feature_like issue &&
        !(FEATURE_USECASE_MARKERS.any (fun m => containsSub m body_lower)) &&
        !feature_request_quality issue then
      [ str "Describe the feature use case and expected value."]
    else []
  dedupe (v1 ++ v2 ++ v3 ++ vbug ++ vfeat)

/-- The community forum link `FORUM_URL`. -/
def FORUM_URL : List Char := str "https://forum.dify.ai/"

/-- The community Discord link `DISCORD_URL`. -/
def DISCORD_URL : List Char := str "https://discord.com/invite/FngNHpbcY7"

/-- The bug-report template link `BUG_TEMPLATE_URL`. -/
def BUG_TEMPLATE_URL : List Char :=
  str "https://github.com/langgenius/dify/blob/3aecceff27c6b712628ad463c6e6ac15b8527ebe/.github/ISSUE_TEMPLATE/bug_report.yml"

/-- The code-of-conduct link `CODE_OF_CONDUCT_URL`. -/
def CODE_OF_CONDUCT_URL : List Char :=
  str "https://github.com/langgenius/dify/blob/4c1ad40f8e8a6ee58a958330558f2178b7e47fa7/.github/CODE_OF_CONDUCT.md"

/-- The contributing-guide link `CONTRIBUTING_URL`. -/
def CONTRIBUTING_URL : List Char :=
  str "https://github.com/langgenius/dify/blob/25ac69afc5ac9324079be5f0d02b2a2b03dcc784/CONTRIBUTING.md"

/-- The minimal version string `MIN_DIFY_VERSION_STR`. -/
def MIN_DIFY_VERSION_STR : List Char := str "1.10.0"

/-- Decimal digits of a natural number. -/
def natToChars (n : ℕ) : List Char := (Nat.repr n).data

/-- Round a rational to the nearest integer, ties to even (the model of the
decimal rounding used by Python float `%`-formatting). -/
def roundHalfEven (q : ℚ) : ℤ :=
  let f := ⌊q⌋
  let r := q - (f : ℚ)
  if r < 1 / 2 then f
  else if 1 / 2 < r then f + 1
  else if f % 2 = 0 then f else f + 1

/-- Model of the Python format `f"{q:.1%}"` for a non-negative rational. -/
def formatPercent1 (q : ℚ) : List Char :=
  let m := (roundHalfEven (q * 1000)).toNat
  natToChars (m / 10) ++ [ '.'] ++ natToChars (m % 10) ++ [ '%']

/-- The bulleted reason list `reason_lines` of `render_comment`. -/
def reasonLines (reasons : List (List Char)) : List Char :=
  joinWith [ '\n'] (reasons.map (fun item => str "- " ++ item))

/-- Source `render_comment`: the five fixed close-comment templates (the
dedented greeting block is written out with explicit newlines). -/
def render_comment (issue : IssueData) (category : List Char)
    (reasons : List (List Char)) : List Char :=
  let reason_lines := reasonLines reasons
  let author := issue.author
  if category = str "question" then
    str "Hi @" ++ author ++
      str ", thanks for opening this issue.\n\n### Why this is being closed\nThis issue tracker is reserved for actionable bugs/tasks. This report looks like a usage question.\n\n### Next steps\nPlease use the community channels instead:\n- " ++
      FORUM_URL ++ str "\n- " ++ DISCORD_URL ++
      str "\n\nIf this is actually a bug/task, please open a new issue with clear reproducible details.\n\nThanks for understanding and for supporting Dify."
  else if category = str "language" then
    str "Hi @" ++ author ++
      str ", thanks for opening this issue.\n\n### Why this is being closed\nDify issue tracking requires English-only issue title and description for consistent collaboration.\n\n### Next steps\nPlease open a new issue in English and include clear details so maintainers can help efficiently.\n\nThanks for understanding and for your support."
  else if category = str "unclear" then
    let reasons_block :=
      if reason_lines.isEmpty then
        str "- The issue content is not clear enough to triage."
      else reason_lines
    joinWith [ '\n']
      [ str "Hi @" ++ author ++ str ", thanks for opening this issue.",
        str "",
        str "### Why this is being closed",
        str "We could not extract an actionable task from the current report.",
        str "",
        reasons_block,
        str "",
        str "### Next steps",
        str "Please open a new issue that includes:",
        str "- A clear problem statement",
        str "- Reproducible steps or concrete scope",
        str "- Expected result",
        str "- Actual result and logs/screenshots when available",
        str "",
        str "Thanks for understanding and for helping keep the issue tracker actionable."]
  else if category = str "outdated-version" then
    let reasons_block :=
      if reason_lines.isEmpty then
        str "- Reported Dify version is below v" ++ MIN_DIFY_VERSION_STR ++
          str "."
      else reason_lines
    joinWith [ '\n']
      [ str "Hi @" ++ author ++ str ", thanks for opening this issue.",
        str "",
        str "### Why this is being closed",
        str "This report targets an outdated Dify version.",
        str "",
        reasons_block,
        str "",
        str "### Next steps",
        str "Please upgrade to the latest Dify release and retest. If the issue still occurs on the latest version, open a new issue with updated details.",
        str "",
        str "Thanks for understanding and for supporting Dify."]
  else if category = str "core-standards" then
    let reasons_block :=
      if reason_lines.isEmpty then str "- Required issue details are missing."
      else reason_lines
    joinWith [ '\n']
      [ str "Hi @" ++ author ++ str ", thanks for opening this issue.",
        str "",
        str "### Why this is being closed",
        str "This report does not yet meet the required issue standard for `" ++
          issue.repo ++ str "`.",
        str "",
        reasons_block,
        str "",
        str "### Relevant guidelines",
        str "- Bug report template: " ++ BUG_TEMPLATE_URL,
        str "- Code of Conduct / Language Policy: " ++ CODE_OF_CONDUCT_URL,
        str "- Contributing guide: " ++ CONTRIBUTING_URL,
        str "",
        str "### Next steps",
        str "Please open a new issue in English and include all required details from the bug template/contributing guide.",
        str "",
        str "Thanks for understanding and for your contribution."]
  else []

/-- The "CJK ratio is ..." close reason of `decide`; the `:.0%` rendering of
the threshold is the constant `20%`. -/
def cjkReason (ratio : ℚ) : List Char :=
  str "CJK ratio is " ++ formatPercent1 ratio ++ str " (>= 20%)."

/-- Source `decide`: the ordered, short-circuiting decision procedure. -/
def decide (issue : IssueData) : Decision :=
  if issue.repo ∉ SUPPORTED_REPOS then
    { action := str "skip", category := str "unsupported-repo",
      reasons := [ str "Repository \u0027" ++ issue.repo ++
        str "\u0027 is not supported by this skill."] }
  else if upperStr issue.state ≠ str "OPEN" then
    { action := str "skip", category := str "not-open",
      reasons := [ str "Issue state is " ++ issue.state ++
        str ". No moderation action required."] }
  else
    let ratio :=
      max (cjk_ratio (language_check_text issue))
        (cjk_ratio (sanitize_body_for_cjk issue.body))
    let has_cjk := CJK_RATIO_THRESHOLD ≤ ratio
    let is_question := looks_like_question issue
    if issue.repo ∈ PLUGIN_REPOS then
      if has_cjk then
        { action := str "close", category := str "language",
          reasons := [cjkReason ratio],
          comment := render_comment issue (str "language") [cjkReason ratio] }
      else if is_question then
        { action := str "close", category := str "question",
          reasons :=
            [ str "Issue appears to be a question rather than an actionable task."],
          comment := render_comment issue (str "question")
            [ str "Issue appears to be a question rather than an actionable task."] }
      else
        let reasons := unclear_reasons issue
        if !reasons.isEmpty then
          { action := str "close", category := str "unclear",
            reasons := reasons,
            comment := render_comment issue (str "unclear") reasons }
        else
          { action := str "none", category := str "pass",
            reasons :=
              [ str "Issue appears actionable and follows repository moderation rules."] }
    else if issue.repo ∈ CORE_LIKE_REPOS ∧ ¬issue.linked_prs.isEmpty then
      { action := str "skip", category := str "linked-pr",
        reasons := [ str "Issue has " ++ natToChars issue.linked_prs.length ++
          str " linked PR(s); skip review per policy."] }
    else if issue.repo ∈ CORE_LIKE_REPOS ∧
        upperStr issue.author_association ∈ SKIP_ASSOCIATIONS then
      { action := str "skip", category := str "trusted-author",
        reasons := [ str "Author association is " ++
          upperStr issue.author_association ++
          str "; skip review per policy."] }
    else if has_cjk then
      { action := str "close", category := str "language",
        reasons := [cjkReason ratio],
        comment := render_comment issue (str "language") [cjkReason ratio] }
    else if is_question then
      { action := str "close", category := str "question",
        reasons :=
          [ str "Issue appears to be a question rather than an actionable bug/task."],
        comment := render_comment issue (str "question")
          [ str "Issue appears to be a question rather than an actionable bug/task."] }
    else
      let reported :=
        if issue.repo = CORE_REPO then extract_dify_version issue.body
        else none
      if ((reported.map (fun v => versionLt v MIN_DIFY_VERSION)).getD false) then
      let v := reported.getD (0, 0, 0)
      let version_str := natToChars v.1 ++ [ '.'] ++ natToChars v.2.1 ++
        [ '.'] ++ natToChars v.2.2
      let reasons := [ str "Reported Dify version is v" ++ version_str ++
        str ", which is below v" ++ MIN_DIFY_VERSION_STR ++ str "."]
      { action := str "close", category := str "outdated-version",
        reasons := reasons,
        comment := render_comment issue (str "outdated-version") reasons }
    else
      let violations := core_standard_violations issue
      if !violations.isEmpty then
        { action := str "close", category := str "core-standards",
          reasons := violations,
          comment := render_comment issue (str "core-standards") violations }
      else
        { action := str "none", category := str "pass",
          reasons :=
            [ str "Issue meets baseline moderation and quality standards."] }

/-! Concrete records and bodies used by the witnesses and counterexamples
below. -/

/-- Concrete record for the C2 counterexample: an unsupported repository
with a non-open state. -/
def issueC2 : IssueData :=
  ⟨ str "foo/bar", 1, str "some title", str "some body", str "alice", [],
    str "CLOSED", str "u", str "NONE", []⟩

/-- The body with a fenced code block used against claim C3. -/
def bodyC3 : List Char := str "hello\n```\n中文中文\n```"

/-- Concrete record for the C4 counterexample: empty title and empty body. -/
def issueC4 : IssueData :=
  ⟨ str "r", 1, str "", str "", str "alice", [], str "open", str "u",
    str "NONE", []⟩

/-- The body used for the C5 witness: an inline version mention on the first
line, the explicit label on the second. -/
def bodyC5 : List Char :=
  str "It broke since dify v2.0 yesterday\nDify version: 1.2.0"

/-- Concrete record for the C6 witness: a plugin-repository issue whose
title is both entirely CJK and a question (fullwidth question mark). -/
def issueC6 : IssueData :=
  ⟨ str "langgenius/dify-plugins", 3, str "怎么安装这个插件？", str "",
    str "alice", [], str "open", str "u", str "NONE", []⟩

/-- Concrete record for the C7 witness: untrusted author, disrespectful and
underspecified body, one linked pull request. -/
def issueC7 : IssueData :=
  ⟨ str "langgenius/dify", 4, str "bug", str "this stupid thing is broken",
    str "alice", [], str "open", str "u", str "NONE",
    [ str "https://github.com/langgenius/dify/pull/1"]⟩

/-- The body used for the C10 witness: one checklist-heading section, one
non-response section, one checkbox-only section. -/
def bodyC10 : List Char :=
  str "### Self Checks\nx\n### Problem\n_No response_\n### Steps\n- [x] done"

/-! Claims section: C1 -/

/-- C1, counterexample: on the text U+3000, U+3000, a — where U+3000
(ideographic space) is whitespace and also lies in the CJK Symbols and
Punctuation range — `cjk_ratio` returns 2, which is outside `[0, 1]`, and
is not the ratio of non-whitespace CJK characters (1) to non-whitespace
characters (1). -/
theorem C1_counterexample :
    cjk_ratio (str "　　a") = 2 ∧
      ¬cjk_ratio (str "　　a") ≤ 1 := by
  constructor
  · decide
  · decide

/-- C1, amended: the numerator of `cjk_ratio` counts every character in the
CJK ranges, including whitespace ones such as U+3000, while the denominator
counts non-whitespace characters; hence the result is the stated ratio in
`[0, 1]` only for texts having no character that is simultaneously
whitespace and in a CJK range, and it is 0 for empty input. -/
theorem C1_theorem :
    (∀ text : List Char,
        (∀ c ∈ text, ¬(isSpace c = true ∧ isCJK c = true)) →
        0 ≤ cjk_ratio text ∧ cjk_ratio text ≤ 1) ∧
      cjk_ratio (str "") = 0 := by
  constructor
  · intro text h
    unfold cjk_ratio
    split
    · exact ⟨le_refl 0, zero_le_one⟩
    · split
      · exact ⟨le_refl 0, zero_le_one⟩
      · rename_i htot
        have hcount : text.countP isCJK ≤ text.countP (fun c => !isSpace c) := by
          apply List.countP_mono_left
          intro c hc hcjk
          simp only [Bool.not_eq_true']
          by_contra hsp
          exact h c hc ⟨by simpa using hsp, hcjk⟩
        have hpos : (0 : ℚ) < (text.countP (fun c => !isSpace c) : ℚ) := by
          exact_mod_cast Nat.pos_of_ne_zero htot
        have hdiv : Rat.divInt (text.countP isCJK : ℤ)
            (text.countP (fun c => !isSpace c) : ℤ) =
            (text.countP isCJK : ℚ) / (text.countP (fun c => !isSpace c) : ℚ) := by
          rw [Rat.divInt_eq_div]
          push_cast
          ring
        rw [hdiv]
        constructor
        · exact div_nonneg (by positivity) (le_of_lt hpos)
        · rw [div_le_one hpos]
          exact_mod_cast hcount
  · decide

/-- C1, witness: the bound theorem applied at the concrete text "中文 ok". -/
theorem C1_witness :
    0 ≤ cjk_ratio (str "中文 ok") ∧ cjk_ratio (str "中文 ok") ≤ 1 :=
  C1_theorem.1 (str "中文 ok") (by decide)

/-! Claims section: C2 -/

/-- C2, counterexample: for a record of an unsupported repository whose
state is not open, `decide` returns category `unsupported-repo`, not
`not-open` — the repository gate precedes the state gate. -/
theorem C2_counterexample :
    upperStr issueC2.state ≠ str "OPEN" ∧
      (Moderate.decide issueC2).category ≠ str "not-open" ∧
      (Moderate.decide issueC2).category = str "unsupported-repo" := by
  refine ⟨by decide, by decide, by decide⟩

/-- C2, amended: for every issue record of a supported repository whose
state is not open (case-insensitively), `decide` returns action `skip` with
category `not-open`, regardless of title, body, or labels. -/
theorem C2_theorem (issue : IssueData)
    (hrepo : issue.repo ∈ SUPPORTED_REPOS)
    (hstate : upperStr issue.state ≠ str "OPEN") :
    (Moderate.decide issue).action = str "skip" ∧
      (Moderate.decide issue).category = str "not-open" := by
  unfold Moderate.decide
  rw [if_neg (not_not_intro hrepo), if_pos hstate]
  exact ⟨rfl, rfl⟩

/-- C2, witness: a closed issue of the flagship repository is skipped as
`not-open`. -/
theorem C2_witness :
    (Moderate.decide
        ⟨ str "langgenius/dify", 7, str "t", str "b", str "alice", [],
          str "closed", str "u", str "NONE", []⟩).action = str "skip" ∧
      (Moderate.decide
        ⟨ str "langgenius/dify", 7, str "t", str "b", str "alice", [],
          str "closed", str "u", str "NONE", []⟩).category = str "not-open" :=
  C2_theorem _ (by decide) (by decide)

/-! Claims section: C3 -/

/-- C3, counterexample: the code never strips fenced code blocks — adding
the fenced block of `bodyC3` to the plain body "hello" changes both the
CJK ratio computed on the sanitized body and the effective-content
length. -/
theorem C3_counterexample :
    sanitize_body_for_cjk bodyC3 = bodyC3 ∧
      cjk_ratio (sanitize_body_for_cjk bodyC3) ≠
        cjk_ratio (sanitize_body_for_cjk (str "hello")) ∧
      (effective_content bodyC3).length ≠
        (effective_content (str "hello")).length := by
  refine ⟨by decide, by decide, by decide⟩

/-- Helper for C3: the sanitizer line loop keeps every line verbatim when no
line contains one of the allowed bilingual snippets. -/
theorem sanitizeGo_id (flag : Bool) (lines : List (List Char))
    (h : ∀ l ∈ lines, ∀ sn ∈ ALLOWED_SELF_CHECKS_CJK_SNIPPETS,
      containsSub sn l = false) :
    sanitizeGo flag lines = lines := by
  induction lines generalizing flag with
  | nil => rfl
  | cons line rest ih =>
    have hline := h line (List.mem_cons_self _ _)
    have hrest : ∀ l ∈ rest, ∀ sn ∈ ALLOWED_SELF_CHECKS_CJK_SNIPPETS,
        containsSub sn l = false :=
      fun l hl => h l (List.mem_cons_of_mem _ hl)
    have hany : (ALLOWED_SELF_CHECKS_CJK_SNIPPETS.any
        (fun sn => containsSub sn line)) = false := by
      rw [List.any_eq_false]
      intro sn hsn
      simp [hline sn hsn]
    unfold sanitizeGo
    rw [hany]
    simp only [Bool.and_false, Bool.false_eq_true, if_false]
    split
    · rw [ih _ hrest]
    · rw [ih _ hrest]

/-- C3, amended: the only preprocessing before the language-ratio analysis
is `sanitize_body_for_cjk`, which does not remove fenced code blocks: on any
body whose lines contain none of the two allowed Self-Checks snippets, it
returns the body with every line unchanged (only line terminators are
normalized by the split/join round trip). -/
theorem C3_theorem (body : List Char)
    (h : ∀ l ∈ pySplitlines body, ∀ sn ∈ ALLOWED_SELF_CHECKS_CJK_SNIPPETS,
      containsSub sn l = false) :
    sanitize_body_for_cjk body = joinWith [ '\n'] (pySplitlines body) := by
  unfold sanitize_body_for_cjk
  rw [sanitizeGo_id false _ h]

/-- C3, witness: the amended sanitizer identity applied to a body holding a
fenced code block. -/
theorem C3_witness :
    sanitize_body_for_cjk (str "a\n```\nprint(1)\n```") =
      joinWith [ '\n'] (pySplitlines (str "a\n```\nprint(1)\n```")) :=
  C3_theorem _ (by decide)

/-! Claims section: C4 -/

/-- C4, counterexample: with an empty title and an empty body,
`unclear_reasons` returns two reasons (the title reason precedes the
empty-description reason), not a single reason. -/
theorem C4_counterexample :
    normalize_space issueC4.body = [] ∧
      (unclear_reasons issueC4).length ≠ 1 ∧
      unclear_reasons issueC4 =
        [ str "Title is too short or generic.",
          str "Description is empty."] := by
  refine ⟨by decide, by decide, by decide⟩

/-- C4, amended: when the normalized body is empty, `unclear_reasons`
appends "Description is empty." immediately after the title check and
returns without running any further check; the result is that reason alone,
preceded by the title reason exactly when the title is short or generic. -/
theorem C4_theorem (issue : IssueData)
    (h : normalize_space issue.body = []) :
    unclear_reasons issue =
      (if (normalize_space issue.title).length < 8 ∨
          genericTitle (normalize_space issue.title) then
        [ str "Title is too short or generic."]
      else []) ++ [ str "Description is empty."] := by
  unfold unclear_reasons
  simp only [h, List.isEmpty_nil, if_true]

/-- C4, witness: the amended short-circuit applied to a record with a good
title and a whitespace-only body. -/
theorem C4_witness :
    unclear_reasons
        ⟨ str "r", 1, str "A detailed enough title", str "  \n ",
          str "alice", [], str "open", str "u", str "NONE", []⟩ =
      [ str "Description is empty."] := by
  have h := C4_theorem
    ⟨ str "r", 1, str "A detailed enough title", str "  \n ",
      str "alice", [], str "open", str "u", str "NONE", []⟩ (by decide)
  rw [h]
  decide

/-! Claims section: C5 -/

/-- Helper for C5: `findSome?` skips a prefix on which the function returns
`none` everywhere. -/
theorem findSome?_append_of_none {α β : Type} (f : α → Option β)
    (pre rest : List α) (h : ∀ l ∈ pre, f l = none) :
    (pre ++ rest).findSome? f = rest.findSome? f := by
  induction pre with
  | nil => rfl
  | cons a l ih =>
    have ha := h a (List.mem_cons_self _ _)
    simp only [List.cons_append, List.findSome?_cons, ha]
    exact ih (fun x hx => h x (List.mem_cons_of_mem _ hx))

/-- C5: whenever some line of the body matches the "dify version" label with
a parseable version, `extract_dify_version` returns the version parsed from
the first such line — the labelled line wins regardless of any inline
"dify vX.Y" mention anywhere in the body, including earlier ones. -/
theorem C5_theorem (body : List Char) (pre post : List (List Char))
    (line : List Char) (v : ℕ × ℕ × ℕ)
    (hsplit : pySplitlines body = pre ++ line :: post)
    (hpre : ∀ l ∈ pre,
      (if difyVersionLineSearch l then parse_semver l else none) = none)
    (hline : difyVersionLineSearch line = true)
    (hv : parse_semver line = some v) :
    extract_dify_version body = some v := by
  have hbody : body.isEmpty = false := by
    cases hb : body.isEmpty
    · rfl
    · exfalso
      have hnil : pySplitlines body = [] := by
        unfold pySplitlines
        rw [hb]
        rfl
      rw [hsplit] at hnil
      exact absurd hnil (by simp)
  unfold extract_dify_version
  simp only [hbody, Bool.false_eq_true, if_false]
  rw [hsplit, findSome?_append_of_none _ _ _ hpre]
  simp [List.findSome?_cons, hline, hv]

/-- C5, witness: on `bodyC5` the inline scan alone would yield 2.0.0, but
the extractor returns 1.2.0 from the labelled line. -/
theorem C5_witness :
    difyInlineSearch bodyC5 = some (2, 0, 0) ∧
      extract_dify_version bodyC5 = some (1, 2, 0) :=
  ⟨by decide,
    C5_theorem bodyC5 [ str "It broke since dify v2.0 yesterday"] []
      (str "Dify version: 1.2.0") (1, 2, 0) (by decide) (by decide)
      (by decide) (by decide)⟩

/-! Claims section: C10 -/

/-- C10: when the body yields a non-empty template-section list but every
section is dropped by the per-section filter (checklist heading, empty or
non-response content, or checkbox-only content — `sectionPart` returning
`none`), `effective_content` falls back to the whole normalized body rather
than returning the empty text. -/
theorem C10_theorem (body : List Char)
    (hne : extract_template_sections body ≠ [])
    (hdrop : ∀ sec ∈ extract_template_sections body, sectionPart sec = none) :
    effective_content body = normalize_space body := by
  unfold effective_content
  have h1 : (extract_template_sections body).isEmpty = false := by
    simpa [List.isEmpty_iff] using hne
  have h2 : (extract_template_sections body).filterMap sectionPart = [] :=
    List.filterMap_eq_nil_iff.mpr hdrop
  simp only [h1, Bool.false_eq_true, if_false, h2, List.isEmpty_nil, if_true]

/-- C10, witness: the fallback applied to `bodyC10`, whose three sections
are all dropped. -/
theorem C10_witness :
    effective_content bodyC10 = normalize_space bodyC10 :=
  C10_theorem bodyC10 (by decide) (by decide)

/-! Claims section: C6 -/

/-- C6: for an open plugin-repository issue whose maximal CJK ratio (over
title plus sanitized body, and sanitized body alone) reaches the 0.20
threshold, `decide` closes with category `language` — regardless of any
other property of the record, in particular even when the question
classifier also fires. -/
theorem C6_theorem (issue : IssueData)
    (hrepo : issue.repo ∈ PLUGIN_REPOS)
    (hstate : upperStr issue.state = str "OPEN")
    (hratio : CJK_RATIO_THRESHOLD ≤
      max (cjk_ratio (language_check_text issue))
        (cjk_ratio (sanitize_body_for_cjk issue.body))) :
    (Moderate.decide issue).action = str "close" ∧
      (Moderate.decide issue).category = str "language" := by
  have hsup : issue.repo ∈ SUPPORTED_REPOS := List.mem_append_left _ hrepo
  unfold Moderate.decide
  rw [if_neg (not_not_intro hsup), if_neg (not_not_intro hstate)]
  simp only [if_pos hrepo, if_pos hratio]
  exact ⟨trivial, trivial⟩

/-- C6, witness: `issueC6` is a question by the classifier, yet the decision
is `close`/`language`. -/
theorem C6_witness :
    looks_like_question issueC6 = true ∧
      (Moderate.decide issueC6).action = str "close" ∧
      (Moderate.decide issueC6).category = str "language" :=
  ⟨by decide, C6_theorem issueC6 (by decide) (by decide) (by decide)⟩

/-! Claims section: C7 -/

/-- Helper: the plugin and core-like repository sets are disjoint. -/
theorem not_plugin_and_core {r : List Char}
    (h1 : r ∈ PLUGIN_REPOS) (h2 : r ∈ CORE_LIKE_REPOS) : False := by
  simp only [PLUGIN_REPOS, CORE_LIKE_REPOS, WEBAPP_REPOS, CORE_REPO,
    List.mem_cons, List.not_mem_nil, or_false] at h1 h2
  rcases h1 with rfl | rfl <;> rcases h2 with h2 | h2 | h2 <;>
    exact absurd h2 (by decide)

/-- C7: for an open core-like-repository issue with at least one linked
pull request, `decide` skips with category `linked-pr`, regardless of the
author association and of the body content. -/
theorem C7_theorem (issue : IssueData)
    (hrepo : issue.repo ∈ CORE_LIKE_REPOS)
    (hstate : upperStr issue.state = str "OPEN")
    (hprs : issue.linked_prs ≠ []) :
    (Moderate.decide issue).action = str "skip" ∧
      (Moderate.decide issue).category = str "linked-pr" := by
  have hsup : issue.repo ∈ SUPPORTED_REPOS := List.mem_append_right _ hrepo
  have hplug : issue.repo ∉ PLUGIN_REPOS :=
    fun hp => not_plugin_and_core hp hrepo
  have hcond : issue.repo ∈ CORE_LIKE_REPOS ∧
      ¬issue.linked_prs.isEmpty = true :=
    ⟨hrepo, by simpa [List.isEmpty_iff] using hprs⟩
  unfold Moderate.decide
  rw [if_neg (not_not_intro hsup), if_neg (not_not_intro hstate)]
  simp only [if_neg hplug, if_pos hcond]
  exact ⟨trivial, trivial⟩

/-- C7, witness: `issueC7` violates the core standards and has an untrusted
association, yet the decision is `skip`/`linked-pr`. -/
theorem C7_witness :
    upperStr issueC7.author_association ∉ SKIP_ASSOCIATIONS ∧
      core_standard_violations issueC7 ≠ [] ∧
      (Moderate.decide issueC7).action = str "skip" ∧
      (Moderate.decide issueC7).category = str "linked-pr" :=
  ⟨by decide, by decide, C7_theorem issueC7 (by decide) (by decide) (by decide)⟩

/-! Claims section: C8 -/

/-- C8: `decide` never returns `core-standards` or `outdated-version` for a
plugin-repository record, and never returns `unclear` for a core-like
repository record. -/
theorem C8_theorem (issue : IssueData) :
    (issue.repo ∈ PLUGIN_REPOS →
      (Moderate.decide issue).category ≠ str "core-standards" ∧
        (Moderate.decide issue).category ≠ str "outdated-version") ∧
    (issue.repo ∈ CORE_LIKE_REPOS →
      (Moderate.decide issue).category ≠ str "unclear") := by
  unfold Moderate.decide
  constructor
  · intro hplug
    repeat' split
    all_goals simp only []
    all_goals repeat' split
    all_goals try dsimp only
    all_goals first
      | exact absurd hplug ‹_›
      | exact ⟨by decide, by decide⟩
  · intro hcore
    repeat' split
    all_goals simp only []
    all_goals repeat' split
    all_goals try dsimp only
    all_goals first
      | exact (not_plugin_and_core ‹_› hcore).elim
      | decide

/-- C8, witness: the exclusivity theorem applied to a concrete plugin-repo
record and a concrete core-repo record. -/
theorem C8_witness :
    ((Moderate.decide
        ⟨ str "langgenius/dify-official-plugins", 5, str "x", str "",
          str "alice", [], str "open", str "u", str "NONE", []⟩).category ≠
      str "core-standards") ∧
    ((Moderate.decide
        ⟨ str "langgenius/webapp-conversation", 6, str "x", str "",
          str "alice", [], str "open", str "u", str "NONE", []⟩).category ≠
      str "unclear") :=
  ⟨((C8_theorem _).1 (by decide)).1, (C8_theorem _).2 (by decide)⟩

/-! Claims section: C9 -/

/-- Helper for C9: every close-category template rendered by
`render_comment` is non-empty (each starts with the greeting). -/
theorem render_comment_ne_nil (issue : IssueData) (cat : List Char)
    (reasons : List (List Char))
    (h : cat = str "question" ∨ cat = str "language" ∨ cat = str "unclear" ∨
      cat = str "outdated-version" ∨ cat = str "core-standards") :
    render_comment issue cat reasons ≠ [] := by
  have hH : str "Hi @" ≠ ([] : List Char) := by decide
  rcases h with rfl | rfl | rfl | rfl | rfl
  · simp [render_comment, List.append_eq_nil, hH]
  · have h1 : str "language" ≠ str "question" := by decide
    simp [render_comment, h1, List.append_eq_nil, hH]
  · have h1 : str "unclear" ≠ str "question" := by decide
    have h2 : str "unclear" ≠ str "language" := by decide
    simp [render_comment, h1, h2, joinWith, List.append_eq_nil, hH]
  · have h1 : str "outdated-version" ≠ str "question" := by decide
    have h2 : str "outdated-version" ≠ str "language" := by decide
    have h3 : str "outdated-version" ≠ str "unclear" := by decide
    simp [render_comment, h1, h2, h3, joinWith, List.append_eq_nil, hH]
  · have h1 : str "core-standards" ≠ str "question" := by decide
    have h2 : str "core-standards" ≠ str "language" := by decide
    have h3 : str "core-standards" ≠ str "unclear" := by decide
    have h4 : str "core-standards" ≠ str "outdated-version" := by decide
    simp [render_comment, h1, h2, h3, h4, joinWith, List.append_eq_nil, hH]

/-- C9: every decision has a non-empty reason list whenever its action is
`close`, and its rendered comment is non-empty exactly when its action is
`close`. -/
theorem C9_theorem (issue : IssueData) :
    ((Moderate.decide issue).action = str "close" →
      (Moderate.decide issue).reasons ≠ []) ∧
    ((Moderate.decide issue).comment ≠ [] ↔
      (Moderate.decide issue).action = str "close") := by
  unfold Moderate.decide
  repeat' split
  all_goals simp only []
  all_goals repeat' split
  all_goals try dsimp only
  all_goals first
    | exact ⟨fun hc => absurd hc (by decide),
        Iff.intro (fun hc => (hc rfl).elim) (fun hc => absurd hc (by decide))⟩
    | (refine ⟨fun _ => ?_,
        Iff.intro (fun _ => rfl)
          (fun _ => render_comment_ne_nil _ _ _ (by decide))⟩
       first
         | exact List.cons_ne_nil _ _
         | (intro hnil
            simp_all))

/-- C9, witness: the invariant applied at a closing record (plugin question)
and at a skipping record (closed state). -/
theorem C9_witness :
    ((Moderate.decide
        ⟨ str "langgenius/dify-plugins", 8, str "How do I do this?", str "",
          str "alice", [], str "open", str "u", str "NONE", []⟩).comment ≠ [] ↔
      (Moderate.decide
        ⟨ str "langgenius/dify-plugins", 8, str "How do I do this?", str "",
          str "alice", [], str "open", str "u", str "NONE", []⟩).action =
        str "close") ∧
    ((Moderate.decide
        ⟨ str "langgenius/dify", 9, str "t", str "b", str "alice", [],
          str "CLOSED", str "u", str "NONE", []⟩).comment ≠ [] ↔
      (Moderate.decide
        ⟨ str "langgenius/dify", 9, str "t", str "b", str "alice", [],
          str "CLOSED", str "u", str "NONE", []⟩).action = str "close") :=
  ⟨(C9_theorem _).2, (C9_theorem _).2⟩

end Moderate
